import Mathlib

/-!
Shallow embedding of the telemetry-ingestion pipeline
(`database-supervisor`, `event-router`, `influxdb-service` crates) and
verification of its specification claims.

Modelling conventions:
* Rust `f64` readings and threshold bounds are modelled as `ℚ`; the claims
  concern only order comparisons, which agree with IEEE-754 comparison on
  the finite values the pipeline handles.
* Rust `String` is Lean `String`; byte slices are `List Nat` with each
  entry < 256.
* SQL tables are association lists inside an explicit `DbState`; a query
  is a pure lookup, an `INSERT`/`UPDATE` produces a new state.  The
  happy-path semantics is modelled (no injected SQL failures); the
  non-database side effects (time-series sink writes, message-bus
  publications) are collected in a `SideEffects` record.
-/

set_option maxHeartbeats 1000000

namespace PlantPipeline

/-! ## Severity and threshold evaluation
Embeds `database-supervisor/src/threshold.rs`. -/

/-- `Severity` from `threshold.rs`: three-variant enum whose derived order
is declaration order, `Normal < Warn < Critical`. -/
inductive Severity where
  | Normal
  | Warn
  | Critical
deriving DecidableEq

/-- Constructor index, realising the derived `Ord` of the Rust enum. -/
def Severity.toIdx : Severity → Nat
  | .Normal => 0
  | .Warn => 1
  | .Critical => 2

/-- The derived strict order `a > b` used in `aggregate_severity`. -/
def Severity.isGT (a b : Severity) : Bool := b.toIdx < a.toIdx

/-- `Severity::as_str` from `threshold.rs`. -/
def Severity.as_str : Severity → String
  | .Normal => "NORMAL"
  | .Warn => "WARN"
  | .Critical => "CRITICAL"

/-- `Severity::from_str` from `threshold.rs`: everything other than
`"WARN"` and `"CRITICAL"` maps to `Normal`. -/
def Severity.from_str (s : String) : Severity :=
  if s = "WARN" then .Warn
  else if s = "CRITICAL" then .Critical
  else .Normal

/-- `MetricThreshold` from `threshold.rs`; `f64` bounds modelled as `ℚ`. -/
structure MetricThreshold where
  metric : String
  warn_min : Option ℚ
  warn_max : Option ℚ
  crit_min : Option ℚ
  crit_max : Option ℚ
deriving DecidableEq

/-- Helper for the early-return tests `if let Some(min) = … { if value < min … }`. -/
def breachMin (value : ℚ) : Option ℚ → Bool
  | some min => decide (value < min)
  | none => false

/-- Helper for the early-return tests `if let Some(max) = … { if value > max … }`. -/
def breachMax (value : ℚ) : Option ℚ → Bool
  | some max => decide (max < value)
  | none => false

/-- `evaluate_metric` from `threshold.rs`: the four early-return checks in
source order (crit_min, crit_max, warn_min, warn_max), strict comparisons. -/
def evaluate_metric (value : ℚ) (t : MetricThreshold) : Severity :=
  if breachMin value t.crit_min then .Critical
  else if breachMax value t.crit_max then .Critical
  else if breachMin value t.warn_min then .Warn
  else if breachMax value t.warn_max then .Warn
  else .Normal

/-- `aggregate_severity` from `threshold.rs`: fold keeping the maximum,
starting from `Normal`. -/
def aggregate_severity (severities : List Severity) : Severity :=
  severities.foldl (fun overall s => if s.isGT overall then s else overall) .Normal

instance (o : Option ℚ) (p : ℚ → Prop) [DecidablePred p] :
    Decidable (∃ m ∈ o, p m) :=
  match o with
  | none => isFalse (by simp)
  | some v => decidable_of_iff (p v) (by simp)

/-- The threshold cascade as the specification words it
("if `crit_min` present and `value < crit_min` → Critical, else …"),
for comparison with the source embedding `evaluate_metric`. -/
def evaluateMetricSpec (value : ℚ) (t : MetricThreshold) : Severity :=
  if ∃ m ∈ t.crit_min, value < m then .Critical
  else if ∃ m ∈ t.crit_max, m < value then .Critical
  else if ∃ m ∈ t.warn_min, value < m then .Warn
  else if ∃ m ∈ t.warn_max, m < value then .Warn
  else .Normal

/-- Lines 138–142 of `ingest.rs`: the stored severity string (if any row
exists) is run through `Severity::from_str`, defaulting to `Normal`. -/
def prevSeverityOfRow (stored : Option String) : Severity :=
  (stored.map Severity.from_str).getD .Normal

/-! ## Line-protocol serialization
Embeds `database-supervisor/src/telemetry_sink.rs` (production
`InfluxTelemetrySink::write_points`) and, for comparison, the
line-protocol builder `to_line_protocol` of `influxdb-service/src/main.rs`.
`HashMap` iteration is modelled by association lists in iteration order;
an `f64` field value enters as its already-rendered `Display` text (the
claims concern only key escaping, never the float rendering itself). -/

/-- A telemetry point; `α` is the field-value type (`ℚ` inside the ingest
processor, rendered text inside the serializers). -/
structure TelemetryPoint (α : Type) where
  measurement : String
  tags : List (String × String)
  fields : List (String × α)
  timestamp_ns : Int
deriving DecidableEq

/-- Replace every occurrence of character `c` in `s` by the string `rep`
(Rust `str::replace` with a one-character pattern). -/
def replaceChar (s : String) (c : Char) (rep : String) : String :=
  ⟨s.data.flatMap (fun ch => if ch = c then rep.data else [ch])⟩

/-- `escape_lp` from `telemetry_sink.rs` (identical in
`influxdb-service/src/main.rs`): space → `\ `, comma → `\,`, `=` → `\=`,
applied in that order. -/
def escape_lp (s : String) : String :=
  replaceChar (replaceChar (replaceChar s ' ' "\\ ") ',' "\\,") '=' "\\="

/-- The tag section built by both serializers: `,k=v` per tag, keys and
values escaped. -/
def lpTagSection (tags : List (String × String)) : String :=
  String.join (tags.map (fun kv => "," ++ escape_lp kv.1 ++ "=" ++ escape_lp kv.2))

/-- The field section of `InfluxTelemetrySink::write_points`
(`telemetry_sink.rs` lines 104–112): comma-joined `k=v` with the key NOT
escaped. -/
def influxSinkFieldSection (fields : List (String × String)) : String :=
  String.join ((fields.enum.map
    (fun ikv => (if ikv.1 = 0 then "" else ",") ++ ikv.2.1 ++ "=" ++ ikv.2.2)))

/-- The field section of `to_line_protocol` in
`influxdb-service/src/main.rs` (lines 41–49): comma-joined
`escape_lp(k)=v`. -/
def serviceFieldSection (fields : List (String × String)) : String :=
  String.join ((fields.enum.map
    (fun ikv => (if ikv.1 = 0 then "" else ",") ++ escape_lp ikv.2.1 ++ "=" ++ ikv.2.2)))

/-- One line of `InfluxTelemetrySink::write_points` (`telemetry_sink.rs`
lines 98–124): measurement and tags escaped, field keys raw, timestamp
appended when non-zero. -/
def influxSinkLine (p : TelemetryPoint String) : String :=
  if p.timestamp_ns ≠ 0 then
    escape_lp p.measurement ++ lpTagSection p.tags ++ " " ++
      influxSinkFieldSection p.fields ++ " " ++ toString p.timestamp_ns
  else
    escape_lp p.measurement ++ lpTagSection p.tags ++ " " ++
      influxSinkFieldSection p.fields

/-- `to_line_protocol` from `influxdb-service/src/main.rs`: same layout
but with the field keys escaped. -/
def to_line_protocol (p : TelemetryPoint String) : String :=
  if p.timestamp_ns = 0 then
    escape_lp p.measurement ++ lpTagSection p.tags ++ " " ++
      serviceFieldSection p.fields
  else
    escape_lp p.measurement ++ lpTagSection p.tags ++ " " ++
      serviceFieldSection p.fields ++ " " ++ toString p.timestamp_ns

/-- The joined payload of `InfluxTelemetrySink::write_points`. -/
def influxSinkData (points : List (TelemetryPoint String)) : String :=
  String.intercalate "\n" (points.map influxSinkLine)

/-! ## UDP payload codec
Embeds `event-router/src/codec.rs`.  `serde_json::from_slice` is external
library code; it is abstracted as an already-attempted parse: `none`
stands for a byte sequence that is not well-formed JSON for the datagram
schema (including out-of-range `version`/`seq` values), `some msg` for a
successfully deserialized message. -/

/-- `UdpTelemetryMessage` from `codec.rs`; `u8`/`u32` modelled as `Nat`,
`i64` as `Int`, `f64` readings as `ℚ`. -/
structure UdpTelemetryMessage where
  version : Nat
  device_uid : String
  plant_id : String
  seq : Nat
  timestamp_ns : Int
  soil_moisture : Option ℚ
  ambient_light_lux : Option ℚ
  ambient_humidity_rh : Option ℚ
  ambient_temp_c : Option ℚ
deriving DecidableEq

/-- `DecodeError` from `codec.rs`. -/
inductive DecodeError where
  | json
  | unsupportedVersion (v : Nat)
  | emptyDeviceUid
  | emptyPlantId
deriving DecidableEq

/-- `decode` from `codec.rs` (lines 41–55), over the abstracted parse
result: reject a failed parse, a version other than 1, and an
empty-or-whitespace `device_uid` or `plant_id`; otherwise return the
message unchanged. -/
def decode (parsed : Option UdpTelemetryMessage) :
    Except DecodeError UdpTelemetryMessage :=
  match parsed with
  | none => .error .json
  | some msg =>
    if msg.version ≠ 1 then .error (.unsupportedVersion msg.version)
    else if msg.device_uid.trim.isEmpty then .error .emptyDeviceUid
    else if msg.plant_id.trim.isEmpty then .error .emptyPlantId
    else .ok msg

/-! ## Stable ingest ID (fingerprint)
Embeds `event-router/src/ingest_id.rs`.  The `sha2` crate is external
library code; SHA-256 itself is implemented here from FIPS 180-4 over
`List Nat` bytes (entries < 256, words reduced mod 2^32), and the crate's
incremental `Sha256` hasher is modelled as accumulation of the update
bytes with the hash taken at `finalize`. -/

/-- 32-bit rotate right (operand < 2^32). -/
def rotr (n x : Nat) : Nat := (x >>> n) ||| ((x <<< (32 - n)) &&& 4294967295)

/-- The eight SHA-256 working variables. -/
structure Hash8 where
  a : Nat
  b : Nat
  c : Nat
  d : Nat
  e : Nat
  f : Nat
  g : Nat
  h : Nat

/-- SHA-256 round constants (FIPS 180-4 §4.2.2). -/
def sha256K : List Nat :=
  [1116352408, 1899447441, 3049323471, 3921009573, 961987163, 1508970993,
   2453635748, 2870763221, 3624381080, 310598401, 607225278, 1426881987,
   1925078388, 2162078206, 2614888103, 3248222580, 3835390401, 4022224774,
   264347078, 604807628, 770255983, 1249150122, 1555081692, 1996064986,
   2554220882, 2821834349, 2952996808, 3210313671, 3336571891, 3584528711,
   113926993, 338241895, 666307205, 773529912, 1294757372, 1396182291,
   1695183700, 1986661051, 2177026350, 2456956037, 2730485921, 2820302411,
   3259730800, 3345764771, 3516065817, 3600352804, 4094571909, 275423344,
   430227734, 506948616, 659060556, 883997877, 958139571, 1322822218,
   1537002063, 1747873779, 1955562222, 2024104815, 2227730452, 2361852424,
   2428436474, 2756734187, 3204031479, 3329325298]

/-- SHA-256 initial hash value (FIPS 180-4 §5.3.3). -/
def sha256Init : Hash8 :=
  ⟨1779033703, 3144134277, 1013904242, 2773480762,
   1359893119, 2600822924, 528734635, 1541459225⟩

/-- One SHA-256 compression round. -/
def sha256Round (st : Hash8) (k w : Nat) : Hash8 :=
  let s1 := rotr 6 st.e ^^^ rotr 11 st.e ^^^ rotr 25 st.e
  let ch := (st.e &&& st.f) ^^^ ((st.e ^^^ 4294967295) &&& st.g)
  let t1 := (st.h + s1 + ch + k + w) % 4294967296
  let s0 := rotr 2 st.a ^^^ rotr 13 st.a ^^^ rotr 22 st.a
  let maj := (st.a &&& st.b) ^^^ (st.a &&& st.c) ^^^ (st.b &&& st.c)
  let t2 := (s0 + maj) % 4294967296
  ⟨(t1 + t2) % 4294967296, st.a, st.b, st.c, (st.d + t1) % 4294967296, st.e, st.f, st.g⟩

/-- Big-endian 32-bit words from a byte list (4 bytes per word). -/
def bytesToWords : List Nat → List Nat
  | b0 :: b1 :: b2 :: b3 :: rest =>
    (b0 * 16777216 + b1 * 65536 + b2 * 256 + b3) :: bytesToWords rest
  | _ => []

/-- Extend the 16 block words by `n` further schedule words. -/
def extendSchedule : Nat → List Nat → List Nat
  | 0, w => w
  | n + 1, w =>
    let len := w.length
    let w15 := w.getD (len - 15) 0
    let w2 := w.getD (len - 2) 0
    let s0 := rotr 7 w15 ^^^ rotr 18 w15 ^^^ (w15 >>> 3)
    let s1 := rotr 17 w2 ^^^ rotr 19 w2 ^^^ (w2 >>> 10)
    extendSchedule n (w ++ [(w.getD (len - 16) 0 + s0 + w.getD (len - 7) 0 + s1) % 4294967296])

/-- Process one 64-byte block. -/
def sha256Block (st : Hash8) (block : List Nat) : Hash8 :=
  let ws := extendSchedule 48 (bytesToWords block)
  let r := (sha256K.zip ws).foldl (fun s kw => sha256Round s kw.1 kw.2) st
  ⟨(st.a + r.a) % 4294967296, (st.b + r.b) % 4294967296,
   (st.c + r.c) % 4294967296, (st.d + r.d) % 4294967296,
   (st.e + r.e) % 4294967296, (st.f + r.f) % 4294967296,
   (st.g + r.g) % 4294967296, (st.h + r.h) % 4294967296⟩

/-- Big-endian 8-byte encoding (used for the padded bit length). -/
def beBytes8 (n : Nat) : List Nat :=
  [n / 72057594037927936 % 256, n / 281474976710656 % 256,
   n / 1099511627776 % 256, n / 4294967296 % 256,
   n / 16777216 % 256, n / 65536 % 256, n / 256 % 256, n % 256]

/-- SHA-256 message padding: `0x80`, zeros to 56 mod 64, 8-byte big-endian
bit length. -/
def sha256Pad (msg : List Nat) : List Nat :=
  msg ++ 128 :: List.replicate ((119 - msg.length % 64) % 64) 0 ++
    beBytes8 (msg.length * 8)

/-- Split into 64-byte blocks. -/
def toBlocks (l : List Nat) : List (List Nat) :=
  if h : l = [] then []
  else l.take 64 :: toBlocks (l.drop 64)
termination_by l.length
decreasing_by
  have hp : 0 < l.length := List.length_pos.mpr h
  simp only [List.length_drop]
  omega

/-- Big-endian 4-byte serialization of one hash word. -/
def beBytes4 (w : Nat) : List Nat :=
  [w / 16777216 % 256, w / 65536 % 256, w / 256 % 256, w % 256]

/-- Serialize the final hash state to 32 digest bytes. -/
def digestBytes (st : Hash8) : List Nat :=
  [st.a, st.b, st.c, st.d, st.e, st.f, st.g, st.h].flatMap beBytes4

/-- SHA-256 of a byte list. -/
def sha256 (msg : List Nat) : List Nat :=
  digestBytes ((toBlocks (sha256Pad msg)).foldl sha256Block sha256Init)

/-- The sixteen lowercase hex digits. -/
def hexChars : List Char := "0123456789abcdef".data

/-- Lowercase hex digit of a nibble. -/
def hexDigitChar (n : Nat) : Char := hexChars.getD n 'x'

/-- `hex::encode`: two lowercase hex digits per byte. -/
def hexEncode (bytes : List Nat) : String :=
  ⟨bytes.flatMap (fun b => [hexDigitChar (b / 16), hexDigitChar (b % 16)])⟩

/-- UTF-8 encoding of one scalar value (Rust `str::as_bytes` byte layout). -/
def utf8EncodeChar (c : Char) : List Nat :=
  let n := c.toNat
  if n < 128 then [n]
  else if n < 2048 then [192 ||| (n >>> 6), 128 ||| (n &&& 63)]
  else if n < 65536 then
    [224 ||| (n >>> 12), 128 ||| ((n >>> 6) &&& 63), 128 ||| (n &&& 63)]
  else
    [240 ||| (n >>> 18), 128 ||| ((n >>> 12) &&& 63),
     128 ||| ((n >>> 6) &&& 63), 128 ||| (n &&& 63)]

/-- Rust `str::as_bytes`: the UTF-8 bytes of a string. -/
def utf8Bytes (s : String) : List Nat := s.data.flatMap utf8EncodeChar

/-- `u32::to_le_bytes`. -/
def leBytes4 (n : Nat) : List Nat :=
  [n % 256, n / 256 % 256, n / 65536 % 256, n / 16777216 % 256]

/-- `i64::to_le_bytes`: two's-complement representation, little endian. -/
def leBytes8 (t : Int) : List Nat :=
  let n := (t % 18446744073709551616).toNat
  [n % 256, n / 256 % 256, n / 65536 % 256, n / 16777216 % 256,
   n / 4294967296 % 256, n / 1099511627776 % 256,
   n / 281474976710656 % 256, n / 72057594037927936 % 256]

/-- The `sha2` crate's incremental hasher, modelled as accumulation. -/
structure Sha256Hasher where
  data : List Nat

/-- `Sha256::new()`. -/
def Sha256Hasher.init : Sha256Hasher := ⟨[]⟩

/-- `Digest::update`: absorb more input bytes. -/
def Sha256Hasher.update (hs : Sha256Hasher) (bytes : List Nat) : Sha256Hasher :=
  ⟨hs.data ++ bytes⟩

/-- `Digest::finalize`: hash of everything absorbed. -/
def Sha256Hasher.finalize (hs : Sha256Hasher) : List Nat := sha256 hs.data

namespace IngestId

/-- `compute` from `event-router/src/ingest_id.rs`: five incremental
updates (device_uid, 0, plant_id, 0, seq LE, timestamp LE), then the
lowercase-hex digest. -/
def compute (device_uid plant_id : String) (seq : Nat) (timestamp_ns : Int) : String :=
  let hasher := Sha256Hasher.init
  let hasher := hasher.update (utf8Bytes device_uid)
  let hasher := hasher.update [0]
  let hasher := hasher.update (utf8Bytes plant_id)
  let hasher := hasher.update [0]
  let hasher := hasher.update (leBytes4 seq)
  let hasher := hasher.update (leBytes8 timestamp_ns)
  hexEncode hasher.finalize

end IngestId

/-- The byte sequence named by the specification:
`device_uid ‖ 0x00 ‖ plant_id ‖ 0x00 ‖ seq (LE 4 bytes) ‖ timestamp_ns (LE 8 bytes)`. -/
def fingerprintSpecBytes (device_uid plant_id : String) (seq : Nat)
    (timestamp_ns : Int) : List Nat :=
  utf8Bytes device_uid ++ [0] ++ utf8Bytes plant_id ++ [0] ++
    leBytes4 seq ++ leBytes8 timestamp_ns

/-! ## Ingest processor
Embeds `process_envelope` and `record_ledger` from
`database-supervisor/src/ingest.rs`.  The six relational tables live in an
explicit `DbState`; only the columns the handler reads or writes are
modelled.  `NOW()` is an explicit `now : Nat` argument. -/

/-- Hex-digit test used by the UUID parser model. -/
def isHexChar (c : Char) : Bool :=
  c.isDigit || ['a', 'b', 'c', 'd', 'e', 'f', 'A', 'B', 'C', 'D', 'E', 'F'].contains c

/-- `Uuid::parse_str` of the external `uuid` crate, modelled on its two
common accepted forms: the hyphenated `8-4-4-4-12` form and the simple
32-hex-digit form, both case-insensitive; the result is the canonical
lowercase hyphenated string. -/
def parseUuid (s : String) : Option String :=
  let cs := s.data
  if cs.length = 36 then
    if (List.range 36).all (fun i =>
        if i = 8 || i = 13 || i = 18 || i = 23 then cs.getD i 'x' == '-'
        else isHexChar (cs.getD i 'x')) then
      some ⟨cs.map Char.toLower⟩
    else none
  else if cs.length = 32 && cs.all isHexChar then
    let l := cs.map Char.toLower
    some ⟨l.take 8 ++ '-' :: (l.drop 8).take 4 ++ '-' :: (l.drop 12).take 4 ++
      '-' :: (l.drop 16).take 4 ++ '-' :: l.drop 20⟩
  else none

/-- `TelemetryEnvelope` of the ingest RPC (proto message; fields as used
by `process_envelope` and §3/§6 of the spec). -/
structure TelemetryEnvelope where
  ingest_id : String
  device_uid : String
  plant_id : String
  seq : Nat
  timestamp_ns : Int
  soil_moisture : Option ℚ
  ambient_light_lux : Option ℚ
  ambient_humidity_rh : Option ℚ
  ambient_temp_c : Option ℚ
deriving DecidableEq

/-- A `plant` row (columns consumed by the lookup). -/
structure PlantRow where
  id : String
  plant_type_id : String
  is_active : Bool
deriving DecidableEq

/-- A `plant_type_metric_threshold` row. -/
structure ThresholdRow where
  plant_type_id : String
  metric : String
  warn_min : Option ℚ
  warn_max : Option ℚ
  crit_min : Option ℚ
  crit_max : Option ℚ
deriving DecidableEq

/-- A `plant_current_state` row (key `plant_id`); `metric_severity` is the
JSON object as an association list of severity strings. -/
structure StateRow where
  plant_id : String
  updated_at : Nat
  last_ingest_id : String
  severity : String
  soil_moisture : Option ℚ
  ambient_light_lux : Option ℚ
  ambient_humidity_rh : Option ℚ
  ambient_temp_c : Option ℚ
  metric_severity : List (String × String)
deriving DecidableEq

/-- A `device` row (columns the handler touches). -/
structure DeviceRow where
  device_uid : String
  last_seen_at : Nat
  last_ingest_id : String
deriving DecidableEq

/-- A `ticker_event` row (columns the handler inserts; `id` and
`occurred_at` are database defaults and omitted). -/
structure TickerRow where
  plant_id : String
  device_uid : String
  severity : String
  message : String
  payload_ingest_id : String
deriving DecidableEq

/-- A `telemetry_ingest_ledger` row. -/
structure LedgerRow where
  ingest_id : String
  device_uid : String
  plant_id : Option String
  timestamp_ns : Int
  result : String
deriving DecidableEq

/-- The relational state touched by `process_envelope`. -/
structure DbState where
  ledger : List LedgerRow
  plant : List PlantRow
  thresholds : List ThresholdRow
  currentState : List StateRow
  device : List DeviceRow
  ticker_event : List TickerRow
deriving DecidableEq

/-- `IngestResult` of the ingest RPC (`Ok = 0`, `Duplicate = 1`,
`Error = 2`). -/
inductive IngestResult where
  | Ok
  | Duplicate
  | Error
deriving DecidableEq

/-- `StatusChange` of the ingest RPC, with the proto `Severity` enum
numbering (`NORMAL = 0`, `WARN = 1`, `CRITICAL = 2`). -/
structure StatusChange where
  plant_id : String
  prev_severity : Nat
  new_severity : Nat
  occurred_at_ns : Int
deriving DecidableEq

/-- The `PlantStatusChanged.v1` JSON message published on
`plant.status_change`, modelled structurally. -/
structure BusMessage where
  msgType : String
  plant_id : String
  prev_severity : String
  new_severity : String
  occurred_at_ns : Int
deriving DecidableEq

/-- Non-database side effects of one `process_envelope` call. -/
structure SideEffects where
  sink : List (TelemetryPoint ℚ)
  bus : List BusMessage
deriving DecidableEq

/-- `severity_to_proto` from `ingest.rs` (proto enum numbering). -/
def sevToProto : Severity → Nat
  | .Normal => 0
  | .Warn => 1
  | .Critical => 2

/-- No side effects. -/
def noEffects : SideEffects := ⟨[], []⟩

/-- `SELECT result FROM telemetry_ingest_ledger WHERE ingest_id = $1`. -/
def ledgerLookup (db : DbState) (iid : String) : Option LedgerRow :=
  db.ledger.find? (fun r => r.ingest_id == iid)

/-- `UPDATE device SET last_seen_at = NOW() WHERE device_uid = $1`
(the best-effort refresh on the duplicate path). -/
def touchDevice (db : DbState) (uid : String) (now : Nat) : DbState :=
  { db with device := db.device.map (fun d =>
      if d.device_uid == uid then { d with last_seen_at := now } else d) }

/-- `SELECT id, plant_type_id FROM plant WHERE id = $1 AND is_active = TRUE`. -/
def plantLookup (db : DbState) (pid : String) : Option PlantRow :=
  db.plant.find? (fun r => r.id == pid && r.is_active)

/-- Threshold loading and row conversion (`ingest.rs` lines 89–107). -/
def thresholdsFor (db : DbState) (ptid : String) : List MetricThreshold :=
  (db.thresholds.filter (fun r => r.plant_type_id == ptid)).map
    (fun r => ⟨r.metric, r.warn_min, r.warn_max, r.crit_min, r.crit_max⟩)

/-- The `readings` array of `ingest.rs` lines 110–115, in source order. -/
def readingsOf (env : TelemetryEnvelope) : List (String × Option ℚ) :=
  [("soil_moisture", env.soil_moisture),
   ("ambient_light_lux", env.ambient_light_lux),
   ("ambient_humidity_rh", env.ambient_humidity_rh),
   ("ambient_temp_c", env.ambient_temp_c)]

/-- Per-metric severity map (`ingest.rs` lines 117–128): for each present
reading, evaluate against the matching threshold, absent threshold ⇒
`Normal`. -/
def metricSeverities (env : TelemetryEnvelope) (ths : List MetricThreshold) :
    List (String × Severity) :=
  (readingsOf env).filterMap (fun nv => nv.2.map (fun v =>
    (nv.1, match ths.find? (fun t => t.metric == nv.1) with
           | some t => evaluate_metric v t
           | none => .Normal)))

/-- `SELECT severity FROM plant_current_state WHERE plant_id = $1`. -/
def prevSeverityRow (db : DbState) (pid : String) : Option StateRow :=
  db.currentState.find? (fun r => r.plant_id == pid)

/-- Previous severity (`ingest.rs` lines 133–142): stored string through
`from_str`, default `Normal`. -/
def prevSeverity (db : DbState) (pid : String) : Severity :=
  prevSeverityOfRow ((prevSeverityRow db pid).map (fun r => r.severity))

/-- The sink write of `ingest.rs` lines 144–174: one point with the three
tags and the non-null readings as fields, skipped when all four readings
are null. -/
def mkSinkPoints (env : TelemetryEnvelope) (ptid : String) :
    List (TelemetryPoint ℚ) :=
  let fields := (readingsOf env).filterMap (fun nv => nv.2.map (fun v => (nv.1, v)))
  if fields.isEmpty then []
  else [⟨"plant_telemetry",
         [("plant_id", env.plant_id), ("device_uid", env.device_uid),
          ("plant_type_id", ptid)],
         fields, env.timestamp_ns⟩]

/-- SQL `COALESCE`. -/
def coalesce (a b : Option ℚ) : Option ℚ :=
  match a with
  | some v => some v
  | none => b

/-- The `ON CONFLICT … DO UPDATE` row (`ingest.rs` lines 190–198):
`updated_at`, `last_ingest_id`, `severity`, `metric_severity` overwritten,
the four reading columns coalesced with the old row. -/
def coalesceState (newRow oldRow : StateRow) : StateRow :=
  ⟨oldRow.plant_id, newRow.updated_at, newRow.last_ingest_id, newRow.severity,
   coalesce newRow.soil_moisture oldRow.soil_moisture,
   coalesce newRow.ambient_light_lux oldRow.ambient_light_lux,
   coalesce newRow.ambient_humidity_rh oldRow.ambient_humidity_rh,
   coalesce newRow.ambient_temp_c oldRow.ambient_temp_c,
   newRow.metric_severity⟩

/-- The `VALUES` row of the upsert (`ingest.rs` lines 184–207). -/
def newStateRow (env : TelemetryEnvelope) (pid : String) (overall : Severity)
    (msev : List (String × Severity)) (now : Nat) : StateRow :=
  ⟨pid, now, env.ingest_id, overall.as_str,
   env.soil_moisture, env.ambient_light_lux, env.ambient_humidity_rh,
   env.ambient_temp_c, msev.map (fun p => (p.1, p.2.as_str))⟩

/-- `INSERT INTO plant_current_state … ON CONFLICT (plant_id) DO UPDATE`. -/
def upsertCurrentState (db : DbState) (pid : String) (env : TelemetryEnvelope)
    (overall : Severity) (msev : List (String × Severity)) (now : Nat) : DbState :=
  let nr := newStateRow env pid overall msev now
  if (db.currentState.find? (fun r => r.plant_id == pid)).isSome then
    { db with currentState := db.currentState.map (fun r =>
        if r.plant_id == pid then coalesceState nr r else r) }
  else
    { db with currentState := db.currentState ++ [nr] }

/-- `UPDATE device SET last_seen_at = NOW(), last_ingest_id = $2 WHERE
device_uid = $1` (`ingest.rs` lines 212–218). -/
def updateDevice (db : DbState) (env : TelemetryEnvelope) (now : Nat) : DbState :=
  { db with device := db.device.map (fun d =>
      if d.device_uid == env.device_uid then
        ⟨d.device_uid, now, env.ingest_id⟩
      else d) }

/-- The ticker message (`ingest.rs` lines 221–224). -/
def tickerMessage (env : TelemetryEnvelope) (overall : Severity) : String :=
  "Plant " ++ env.plant_id ++ " reading: severity=" ++ overall.as_str

/-- `INSERT INTO ticker_event …` (`ingest.rs` lines 225–237). -/
def insertTicker (db : DbState) (pid : String) (env : TelemetryEnvelope)
    (overall : Severity) : DbState :=
  { db with ticker_event := db.ticker_event ++
      [⟨pid, env.device_uid, overall.as_str, tickerMessage env overall,
        env.ingest_id⟩] }

/-- The returned `StatusChange` (`ingest.rs` lines 241–246). -/
def mkStatusChange (env : TelemetryEnvelope) (prev overall : Severity) :
    StatusChange :=
  ⟨env.plant_id, sevToProto prev, sevToProto overall, env.timestamp_ns⟩

/-- The published bus payload (`ingest.rs` lines 249–255). -/
def mkBusMessage (env : TelemetryEnvelope) (prev overall : Severity) :
    BusMessage :=
  ⟨"PlantStatusChanged.v1", env.plant_id, prev.as_str, overall.as_str,
   env.timestamp_ns⟩

/-- `record_ledger` from `ingest.rs` (lines 286–303):
`INSERT … ON CONFLICT (ingest_id) DO NOTHING`. -/
def record_ledger (db : DbState) (env : TelemetryEnvelope) (result : String) :
    DbState :=
  if (db.ledger.find? (fun r => r.ingest_id == env.ingest_id)).isSome then db
  else
    { db with ledger := db.ledger ++
        [⟨env.ingest_id, env.device_uid, parseUuid env.plant_id,
          env.timestamp_ns, result⟩] }

/-- `process_envelope` from `ingest.rs` (lines 47–276), happy-path
semantics: UUID parse, dedup probe, plant lookup, threshold evaluation,
sink write, state upsert, device update, ticker insert, status-change
detection and ledger finalization.  `hasChan` models whether an AMQP
channel is configured, `now` is `NOW()`. -/
def process_envelope (env : TelemetryEnvelope) (db : DbState)
    (hasChan : Bool) (now : Nat) :
    (IngestResult × Option StatusChange) × DbState × SideEffects :=
  match parseUuid env.plant_id with
  | none => ((.Error, none), db, noEffects)
  | some plant_id =>
    match ledgerLookup db env.ingest_id with
    | some _ => ((.Duplicate, none), touchDevice db env.device_uid now, noEffects)
    | none =>
      match plantLookup db plant_id with
      | none => ((.Error, none), record_ledger db env "ERROR", noEffects)
      | some prow =>
        let ths := thresholdsFor db prow.plant_type_id
        let msev := metricSeverities env ths
        let overall := aggregate_severity (msev.map Prod.snd)
        let prev := prevSeverity db prow.id
        let sinkPts := mkSinkPoints env prow.plant_type_id
        let db1 := upsertCurrentState db prow.id env overall msev now
        let db2 := updateDevice db1 env now
        let db3 := insertTicker db2 prow.id env overall
        let changeAndBus :=
          if overall ≠ prev then
            (some (mkStatusChange env prev overall),
             if hasChan then [mkBusMessage env prev overall] else [])
          else (none, [])
        let db4 := record_ledger db3 env "OK"
        ((.Ok, changeAndBus.1), db4, ⟨sinkPts, changeAndBus.2⟩)

/-- The `plant_current_state` row for `pid` after one `process_envelope`
call. -/
def stateRowAfter (env : TelemetryEnvelope) (db : DbState) (hasChan : Bool)
    (now : Nat) (pid : String) : Option StateRow :=
  (process_envelope env db hasChan now).2.1.currentState.find?
    (fun r => r.plant_id == pid)

/-! ### Concrete fixtures used by witnesses and counterexamples -/

/-- An empty database. -/
def emptyDb : DbState := ⟨[], [], [], [], [], []⟩

/-- An envelope whose `plant_id` is not a UUID. -/
def envBadUuid : TelemetryEnvelope :=
  ⟨"ing-bad", "dev-1", "not-a-uuid", 1, 100, some 50, none, none, none⟩

/-- A database whose ledger already holds `envBadUuid`'s ingest id. -/
def dbWithBadLedger : DbState :=
  ⟨[⟨"ing-bad", "dev-1", none, 100, "OK"⟩], [], [], [], [⟨"dev-1", 0, ""⟩], []⟩

/-- A valid plant UUID (canonical form). -/
def plantUuid : String := "550e8400-e29b-41d4-a716-446655440000"

/-- An envelope with a valid `plant_id`. -/
def envValid : TelemetryEnvelope :=
  ⟨"ing-1", "dev-1", plantUuid, 2, 1700000000000000000, some 15, none, none, none⟩

/-- A database in which `envValid` is already ledgered. -/
def dbDup : DbState :=
  ⟨[⟨"ing-1", "dev-1", some plantUuid, 1700000000000000000, "OK"⟩],
   [⟨plantUuid, "ptype-1", true⟩], [], [], [⟨"dev-1", 3, "old"⟩], []⟩

/-- A database that knows no active plant for `envValid`. -/
def dbNoPlant : DbState :=
  ⟨[], [⟨plantUuid, "ptype-1", false⟩], [], [], [⟨"dev-1", 3, "old"⟩], []⟩

/-- A database with an active plant, a soil-moisture threshold band
`(warn 20–80, crit 10–90)` and an existing `NORMAL` state row. -/
def dbActive : DbState :=
  ⟨[], [⟨plantUuid, "ptype-1", true⟩],
   [⟨"ptype-1", "soil_moisture", some 20, some 80, some 10, some 90⟩],
   [⟨plantUuid, 1, "ing-0", "NORMAL", some 50, none, none, some 22, [("soil_moisture", "NORMAL")]⟩],
   [⟨"dev-1", 3, "old"⟩], []⟩

/-- An envelope with a null `soil_moisture` and a present
`ambient_temp_c`. -/
def envNullSoil : TelemetryEnvelope :=
  ⟨"ing-2", "dev-1", plantUuid, 3, 1700000000000000100, none, none, none, some 22⟩

/-! ## Theorems -/

theorem record_ledger_currentState (db : DbState) (env : TelemetryEnvelope)
    (s : String) : (record_ledger db env s).currentState = db.currentState := by
  unfold record_ledger
  split <;> rfl

theorem record_ledger_device (db : DbState) (env : TelemetryEnvelope)
    (s : String) : (record_ledger db env s).device = db.device := by
  unfold record_ledger
  split <;> rfl

theorem record_ledger_ticker (db : DbState) (env : TelemetryEnvelope)
    (s : String) : (record_ledger db env s).ticker_event = db.ticker_event := by
  unfold record_ledger
  split <;> rfl

theorem find?_map_update (l : List StateRow) (pid : String)
    (f : StateRow → StateRow) (hf : ∀ r, (f r).plant_id = r.plant_id) :
    (l.map (fun r => if r.plant_id == pid then f r else r)).find?
        (fun r => r.plant_id == pid)
      = (l.find? (fun r => r.plant_id == pid)).map f := by
  induction l with
  | nil => rfl
  | cons r tl ih =>
    rw [List.map_cons]
    by_cases hr : r.plant_id = pid
    · have hb : (r.plant_id == pid) = true := beq_iff_eq.mpr hr
      have hfb : ((f r).plant_id == pid) = true := by rw [hf]; exact hb
      rw [if_pos hb]
      simp [List.find?, hfb, hb]
    · have hb : (r.plant_id == pid) = false := by simpa using hr
      rw [if_neg (by simp [hr])]
      simp only [List.find?, hb]
      exact ih

/-- C1: evaluated at a point whose tag key and field key both contain a
space, `InfluxTelemetrySink::write_points` escapes the tag key but emits
the field key raw, while the parallel serializer `to_line_protocol`
(`influxdb-service`) escapes both — refuting the claim that the production
sink escapes field keys by the same rules as tag keys. -/
theorem C1_field_key_unescaped :
    influxSinkData [⟨"plant_telemetry", [("plant id", "p1")], [("soil moisture", "42")], 7⟩]
        = "plant_telemetry,plant\\ id=p1 soil moisture=42 7" ∧
    to_line_protocol ⟨"plant_telemetry", [("plant id", "p1")], [("soil moisture", "42")], 7⟩
        = "plant_telemetry,plant\\ id=p1 soil\\ moisture=42 7" ∧
    influxSinkData [⟨"plant_telemetry", [("plant id", "p1")], [("soil moisture", "42")], 7⟩]
        ≠ to_line_protocol ⟨"plant_telemetry", [("plant id", "p1")], [("soil moisture", "42")], 7⟩ := by
  refine ⟨by decide, by decide, by decide⟩

theorem mem_beBytes4 {x w : Nat} (hx : x ∈ beBytes4 w) : x < 256 := by
  simp only [beBytes4, List.mem_cons, List.not_mem_nil, or_false] at hx
  rcases hx with h | h | h | h <;> omega

theorem sha256_length (msg : List Nat) : (sha256 msg).length = 32 := by
  simp [sha256, digestBytes, beBytes4]

theorem sha256_byte_lt (msg : List Nat) : ∀ x ∈ sha256 msg, x < 256 := by
  intro x hx
  simp only [sha256, digestBytes, List.mem_flatMap] at hx
  obtain ⟨w, -, hw⟩ := hx
  exact mem_beBytes4 hw

theorem hexDigitChar_mem : ∀ n, n < 16 → hexDigitChar n ∈ hexChars := by decide

theorem hexEncode_length (bs : List Nat) : (hexEncode bs).length = 2 * bs.length := by
  show (bs.flatMap _).length = 2 * bs.length
  induction bs with
  | nil => rfl
  | cons b tl ih =>
    simp only [List.flatMap_cons, List.length_append, ih, List.length_cons,
      List.length_nil]
    omega

theorem hexEncode_mem (bs : List Nat) (hb : ∀ b ∈ bs, b < 256) :
    ∀ c ∈ (hexEncode bs).data, c ∈ hexChars := by
  intro c hc
  have hd : (hexEncode bs).data
      = bs.flatMap (fun b => [hexDigitChar (b / 16), hexDigitChar (b % 16)]) := rfl
  rw [hd] at hc
  simp only [List.mem_flatMap, List.mem_cons, List.not_mem_nil, or_false] at hc
  obtain ⟨b, hbmem, hcb⟩ := hc
  have h256 := hb b hbmem
  rcases hcb with rfl | rfl
  · exact hexDigitChar_mem _ (by omega)
  · exact hexDigitChar_mem _ (by omega)

/-- C2 counterexample: an envelope whose `plant_id` does not parse as a
UUID is answered `(Error, None)` even though its `ingest_id` is already in
the ledger — the UUID check precedes the dedup probe — so the claim as
stated (every already-ledgered envelope gets `(Duplicate, None)`) fails. -/
theorem C2_counterexample :
    (∃ r ∈ dbWithBadLedger.ledger, r.ingest_id = envBadUuid.ingest_id) ∧
    (process_envelope envBadUuid dbWithBadLedger false 0).1
      ≠ (IngestResult.Duplicate, (none : Option StatusChange)) := by
  exact ⟨by decide, by decide⟩

/-- C2 (amended with a parsable `plant_id`): for every envelope whose
`plant_id` parses as a UUID and whose `ingest_id` already has a ledger
row, `process_envelope` returns `(Duplicate, None)` and writes nothing to
`plant_current_state`, `ticker_event`, the ledger, the sink or the status
bus; the only state change is the best-effort `device.last_seen_at`
refresh. -/
theorem C2_duplicate_frame (env : TelemetryEnvelope) (db : DbState)
    (hasChan : Bool) (now : Nat) (u : String) (r : LedgerRow)
    (hparse : parseUuid env.plant_id = some u)
    (hdup : ledgerLookup db env.ingest_id = some r) :
    process_envelope env db hasChan now =
      ((.Duplicate, none), touchDevice db env.device_uid now, noEffects) ∧
    (touchDevice db env.device_uid now).ledger = db.ledger ∧
    (touchDevice db env.device_uid now).currentState = db.currentState ∧
    (touchDevice db env.device_uid now).ticker_event = db.ticker_event ∧
    (touchDevice db env.device_uid now).device = db.device.map (fun d =>
      if d.device_uid == env.device_uid then
        ⟨d.device_uid, now, d.last_ingest_id⟩
      else d) := by
  refine ⟨?_, rfl, rfl, rfl, rfl⟩
  simp [process_envelope, hparse, hdup]

/-- Witness for C2 at a concrete duplicate envelope. -/
theorem C2_duplicate_frame_witness :
    process_envelope envValid dbDup true 5 =
      ((.Duplicate, none), touchDevice dbDup envValid.device_uid 5, noEffects) :=
  (C2_duplicate_frame envValid dbDup true 5 plantUuid
    ⟨"ing-1", "dev-1", some plantUuid, 1700000000000000000, "OK"⟩
    (by decide) (by decide)).1

/-- C7: for a non-duplicate envelope with a parsable `plant_id` that
matches no active plant, `process_envelope` records an `ERROR` ledger row
and returns `(Error, None)`, with no sink write, no state upsert, no
ticker event, no device update and no status change. -/
theorem C7_unknown_plant (env : TelemetryEnvelope) (db : DbState)
    (hasChan : Bool) (now : Nat) (u : String)
    (hparse : parseUuid env.plant_id = some u)
    (hdup : ledgerLookup db env.ingest_id = none)
    (hplant : plantLookup db u = none) :
    process_envelope env db hasChan now =
      ((.Error, none), record_ledger db env "ERROR", noEffects) ∧
    (record_ledger db env "ERROR").ledger = db.ledger ++
      [⟨env.ingest_id, env.device_uid, some u, env.timestamp_ns, "ERROR"⟩] ∧
    (record_ledger db env "ERROR").currentState = db.currentState ∧
    (record_ledger db env "ERROR").ticker_event = db.ticker_event ∧
    (record_ledger db env "ERROR").device = db.device := by
  have hdup' : db.ledger.find? (fun r => r.ingest_id == env.ingest_id) = none := hdup
  refine ⟨?_, ?_, record_ledger_currentState db env "ERROR",
    record_ledger_ticker db env "ERROR", record_ledger_device db env "ERROR"⟩
  · simp [process_envelope, hparse, hdup, hplant]
  · simp [record_ledger, hdup', hparse]

/-- Witness for C7 at a concrete unknown-plant envelope. -/
theorem C7_unknown_plant_witness :
    process_envelope envValid dbNoPlant true 5 =
      ((.Error, none), record_ledger dbNoPlant envValid "ERROR", noEffects) := by
  exact (C7_unknown_plant envValid dbNoPlant true 5 plantUuid
    (by decide) (by decide) (by decide)).1

/-- C5: for every non-duplicate, successfully processed envelope, a
`StatusChange` is returned — and, when a bus channel is configured, a bus
message is published — if and only if the aggregated overall severity
differs from the previous severity read from `plant_current_state`
(default `Normal` via `prevSeverity`). -/
theorem C5_status_change_iff (env : TelemetryEnvelope) (db : DbState)
    (hasChan : Bool) (now : Nat) (u : String) (prow : PlantRow)
    (hparse : parseUuid env.plant_id = some u)
    (hdup : ledgerLookup db env.ingest_id = none)
    (hplant : plantLookup db u = some prow) :
    (process_envelope env db hasChan now).1.1 = .Ok ∧
    ((process_envelope env db hasChan now).1.2.isSome ↔
      aggregate_severity
          ((metricSeverities env (thresholdsFor db prow.plant_type_id)).map Prod.snd)
        ≠ prevSeverity db prow.id) ∧
    (hasChan = true →
      ((process_envelope env db hasChan now).2.2.bus ≠ [] ↔
        aggregate_severity
            ((metricSeverities env (thresholdsFor db prow.plant_type_id)).map Prod.snd)
          ≠ prevSeverity db prow.id)) := by
  refine ⟨?_, ?_, ?_⟩
  · simp [process_envelope, hparse, hdup, hplant]
  · by_cases hne : aggregate_severity
        ((metricSeverities env (thresholdsFor db prow.plant_type_id)).map Prod.snd)
        = prevSeverity db prow.id <;>
      simp [process_envelope, hparse, hdup, hplant, hne]
  · intro hchan
    subst hchan
    by_cases hne : aggregate_severity
        ((metricSeverities env (thresholdsFor db prow.plant_type_id)).map Prod.snd)
        = prevSeverity db prow.id <;>
      simp [process_envelope, hparse, hdup, hplant, hne]

/-- Witness for C5 at a concrete envelope producing a `Normal → Warn`
transition. -/
theorem C5_status_change_iff_witness :
    (process_envelope envValid dbActive true 5).1.1 = IngestResult.Ok ∧
    ((process_envelope envValid dbActive true 5).1.2.isSome ↔
      aggregate_severity
          ((metricSeverities envValid (thresholdsFor dbActive "ptype-1")).map Prod.snd)
        ≠ prevSeverity dbActive plantUuid) :=
  have h := C5_status_change_iff envValid dbActive true 5 plantUuid
    ⟨plantUuid, "ptype-1", true⟩ (by decide) (by decide) (by decide)
  ⟨h.1, h.2.1⟩

/-- C6: on an upsert over an existing `plant_current_state` row, a null
reading leaves the stored column unchanged (`COALESCE`), while
`updated_at`, `last_ingest_id`, `severity` and `metric_severity` are
always overwritten. -/
theorem C6_null_preservation (env : TelemetryEnvelope) (db : DbState)
    (hasChan : Bool) (now : Nat) (u : String) (prow : PlantRow)
    (oldRow : StateRow)
    (hparse : parseUuid env.plant_id = some u)
    (hdup : ledgerLookup db env.ingest_id = none)
    (hplant : plantLookup db u = some prow)
    (hold : db.currentState.find? (fun r => r.plant_id == prow.id) = some oldRow) :
    (env.soil_moisture = none →
      (stateRowAfter env db hasChan now prow.id).map (fun r => r.soil_moisture)
        = some oldRow.soil_moisture) ∧
    (env.ambient_light_lux = none →
      (stateRowAfter env db hasChan now prow.id).map (fun r => r.ambient_light_lux)
        = some oldRow.ambient_light_lux) ∧
    (env.ambient_humidity_rh = none →
      (stateRowAfter env db hasChan now prow.id).map (fun r => r.ambient_humidity_rh)
        = some oldRow.ambient_humidity_rh) ∧
    (env.ambient_temp_c = none →
      (stateRowAfter env db hasChan now prow.id).map (fun r => r.ambient_temp_c)
        = some oldRow.ambient_temp_c) ∧
    (stateRowAfter env db hasChan now prow.id).map (fun r => r.updated_at)
      = some now ∧
    (stateRowAfter env db hasChan now prow.id).map (fun r => r.last_ingest_id)
      = some env.ingest_id ∧
    (stateRowAfter env db hasChan now prow.id).map (fun r => r.severity)
      = some (aggregate_severity
          ((metricSeverities env (thresholdsFor db prow.plant_type_id)).map Prod.snd)).as_str ∧
    (stateRowAfter env db hasChan now prow.id).map (fun r => r.metric_severity)
      = some ((metricSeverities env (thresholdsFor db prow.plant_type_id)).map
          (fun p => (p.1, p.2.as_str))) := by
  have hfound : stateRowAfter env db hasChan now prow.id
      = some (coalesceState
          (newStateRow env prow.id
            (aggregate_severity
              ((metricSeverities env (thresholdsFor db prow.plant_type_id)).map Prod.snd))
            (metricSeverities env (thresholdsFor db prow.plant_type_id)) now)
          oldRow) := by
    unfold stateRowAfter
    simp only [process_envelope, hparse, hdup, hplant]
    rw [record_ledger_currentState]
    simp only [insertTicker, updateDevice, upsertCurrentState, hold,
      Option.isSome_some, if_true]
    rw [find?_map_update db.currentState prow.id
      (coalesceState
        (newStateRow env prow.id
          (aggregate_severity
            ((metricSeverities env (thresholdsFor db prow.plant_type_id)).map Prod.snd))
          (metricSeverities env (thresholdsFor db prow.plant_type_id)) now))
      (fun r => rfl), hold]
    rfl
  refine ⟨fun h0 => ?_, fun h1 => ?_, fun h2 => ?_, fun h3 => ?_, ?_, ?_, ?_, ?_⟩ <;>
    simp [hfound, coalesceState, newStateRow, coalesce, *]

/-- Witness for C6: a null `soil_moisture` preserves the stored `50`
while `updated_at` is overwritten. -/
theorem C6_null_preservation_witness :
    (stateRowAfter envNullSoil dbActive true 7 plantUuid).map (fun r => r.soil_moisture)
      = some (some 50) ∧
    (stateRowAfter envNullSoil dbActive true 7 plantUuid).map (fun r => r.updated_at)
      = some 7 :=
  have h := C6_null_preservation envNullSoil dbActive true 7 plantUuid
    ⟨plantUuid, "ptype-1", true⟩
    ⟨plantUuid, 1, "ing-0", "NORMAL", some 50, none, none, some 22,
     [("soil_moisture", "NORMAL")]⟩
    (by decide) (by decide) (by decide) (by decide)
  ⟨h.1 rfl, h.2.2.2.2.1⟩

/-- C8: an envelope whose `plant_id` does not parse as a UUID is answered
`(Error, None)` with the database completely unchanged and no side
effects (no ledger row, no writes at all). -/
theorem C8_invalid_uuid (env : TelemetryEnvelope) (db : DbState)
    (hasChan : Bool) (now : Nat)
    (hparse : parseUuid env.plant_id = none) :
    process_envelope env db hasChan now = ((.Error, none), db, noEffects) := by
  simp [process_envelope, hparse]

/-- Witness for C8 at a concrete malformed `plant_id`. -/
theorem C8_invalid_uuid_witness :
    process_envelope envBadUuid emptyDb true 9 = ((.Error, none), emptyDb, noEffects) :=
  C8_invalid_uuid envBadUuid emptyDb true 9 (by decide)

/-- C3: the fingerprint is the lowercase-hex SHA-256 of
`device_uid ‖ 0x00 ‖ plant_id ‖ 0x00 ‖ seq (LE 4) ‖ timestamp_ns (LE 8)`;
its length is 64, every character is a lowercase hex digit, and equal
inputs give an identical string. -/
theorem C3_fingerprint_layout (d p : String) (s : Nat) (t : Int) :
    IngestId.compute d p s t = hexEncode (sha256 (fingerprintSpecBytes d p s t)) ∧
    (IngestId.compute d p s t).length = 64 ∧
    (∀ c ∈ (IngestId.compute d p s t).data, c ∈ hexChars) ∧
    (∀ d2 p2 s2 t2, d = d2 → p = p2 → s = s2 → t = t2 →
      IngestId.compute d p s t = IngestId.compute d2 p2 s2 t2) := by
  have hmain : IngestId.compute d p s t
      = hexEncode (sha256 (fingerprintSpecBytes d p s t)) := by
    simp [IngestId.compute, Sha256Hasher.init, Sha256Hasher.update,
      Sha256Hasher.finalize, fingerprintSpecBytes, List.append_assoc]
  refine ⟨hmain, ?_, ?_, ?_⟩
  · rw [hmain, hexEncode_length, sha256_length]
  · rw [hmain]
    exact hexEncode_mem _ (sha256_byte_lt _)
  · rintro d2 p2 s2 t2 rfl rfl rfl rfl
    rfl

/-- Witness for C3 at a concrete input (discharging the determinism
hypotheses). -/
theorem C3_fingerprint_layout_witness :
    IngestId.compute "dev-1" "plant-uuid" 42 1700000000000000000
      = IngestId.compute "dev-1" "plant-uuid" 42 1700000000000000000 :=
  (C3_fingerprint_layout "dev-1" "plant-uuid" 42 1700000000000000000).2.2.2
    "dev-1" "plant-uuid" 42 1700000000000000000 rfl rfl rfl rfl

/-- C4: `evaluate_metric` is exactly the specified cascade — Critical on a
present, strictly violated `crit_min`/`crit_max`, else Warn on a present,
strictly violated `warn_min`/`warn_max`, else Normal — and a value exactly
equal to every present bound triggers none of them. -/
theorem C4_evaluate_metric_cascade (value : ℚ) (t : MetricThreshold) :
    evaluate_metric value t = evaluateMetricSpec value t ∧
    evaluate_metric value ⟨t.metric, some value, some value, some value, some value⟩ =
      Severity.Normal := by
  constructor
  · rcases t with ⟨m, wmin, wmax, cmin, cmax⟩
    cases cmin <;> cases cmax <;> cases wmin <;> cases wmax <;>
      simp [evaluate_metric, evaluateMetricSpec, breachMin, breachMax]
  · simp [evaluate_metric, breachMin, breachMax]

/-- C9: `decode` succeeds exactly on a well-formed parse whose version is
1 and whose `device_uid` and `plant_id` are not empty or whitespace-only,
and then returns the decoded message unchanged; every other input yields
an error. -/
theorem C9_decode_ok_iff (parsed : Option UdpTelemetryMessage)
    (msg : UdpTelemetryMessage) :
    decode parsed = .ok msg ↔
      parsed = some msg ∧ msg.version = 1 ∧
      msg.device_uid.trim.isEmpty = false ∧ msg.plant_id.trim.isEmpty = false := by
  cases parsed with
  | none => simp [decode]
  | some m =>
    by_cases hv : m.version = 1 <;>
      by_cases hd : m.device_uid.trim.isEmpty <;>
      by_cases hp : m.plant_id.trim.isEmpty <;>
      simp [decode, hv, hd, hp] <;>
      rintro rfl <;> simp_all

/-- C10: severity string conversion round-trips, and `Severity::from_str`
maps every string other than `"WARN"` and `"CRITICAL"` to `Normal`; hence an
unrecognized stored severity is treated as a previous severity of `Normal`. -/
theorem C10_severity_roundtrip :
    (∀ s : Severity, Severity.from_str s.as_str = s) ∧
    (∀ str : String, str ≠ "WARN" → str ≠ "CRITICAL" →
      Severity.from_str str = Severity.Normal) ∧
    (∀ str : String, str ≠ "WARN" → str ≠ "CRITICAL" →
      prevSeverityOfRow (some str) = Severity.Normal) := by
  refine ⟨fun s => by cases s <;> rfl, fun str h1 h2 => ?_, fun str h1 h2 => ?_⟩
  · simp [Severity.from_str, h1, h2]
  · simp [prevSeverityOfRow, Severity.from_str, h1, h2]

/-- Witness for C10 at concrete inputs. -/
theorem C10_severity_roundtrip_witness :
    Severity.from_str (Severity.Warn.as_str) = Severity.Warn ∧
    Severity.from_str "garbage" = Severity.Normal ∧
    prevSeverityOfRow (some "normal") = Severity.Normal :=
  ⟨C10_severity_roundtrip.1 Severity.Warn,
   C10_severity_roundtrip.2.1 "garbage" (by decide) (by decide),
   C10_severity_roundtrip.2.2 "normal" (by decide) (by decide)⟩

end PlantPipeline
